import Mathlib

/-!
Verification of the HIIT timer engine (src/timer.ts) and the settings
store (src/storage.ts), shallowly embedded in Lean 4.

The engine is a single-threaded state machine; `Date.now()` is passed in
as an explicit `now : Nat` argument, and the `setInterval` handle is
modelled by the boolean `intervalActive`.  Every operation returns the
successor state together with the list of snapshots it emits (in order).
-/

namespace HiitTimer

/-- `Phase` from src/timer.ts. -/
inductive Phase where
  | idle
  | work
  | rest
  | finished
deriving DecidableEq, Repr

/-- `TimerStatus` from src/timer.ts. -/
inductive TimerStatus where
  | idle
  | running
  | paused
  | finished
deriving DecidableEq, Repr

/-- `TimerSettings` from src/timer.ts (all fields non-negative integers). -/
structure TimerSettings where
  workSeconds : Nat
  restSeconds : Nat
  rounds : Nat
deriving DecidableEq, Repr

/-- `TimerSnapshot` from src/timer.ts. -/
structure TimerSnapshot where
  status : TimerStatus
  phase : Phase
  currentRound : Nat
  totalRounds : Nat
  durationMs : Nat
  remainingMs : Nat
deriving DecidableEq, Repr

/-- The mutable closure state of `createTimer` in src/timer.ts:
`settings`, `phase`, `status`, `currentRound`, `durationMs`,
`remainingMs`, `targetTimestamp`, and whether `timerId` is non-null. -/
structure EngineState where
  settings : TimerSettings
  phase : Phase
  status : TimerStatus
  currentRound : Nat
  durationMs : Nat
  remainingMs : Nat
  targetTimestamp : Nat
  intervalActive : Bool
deriving DecidableEq, Repr

/-- `emit` builds the snapshot sent to the listener (src/timer.ts lines 43-52). -/
def snap (s : EngineState) : TimerSnapshot :=
  { status := s.status
    phase := s.phase
    currentRound := s.currentRound
    totalRounds := s.settings.rounds
    durationMs := s.durationMs
    remainingMs := s.remainingMs }

/-- `startPhase` (src/timer.ts lines 81-87): enter `nextPhase` with duration
`nextDurationMs`, set the wall-clock target, and emit. -/
def startPhase (now : Nat) (nextPhase : Phase) (nextDurationMs : Nat)
    (s : EngineState) : EngineState × List TimerSnapshot :=
  let s' := { s with
    phase := nextPhase
    durationMs := nextDurationMs
    remainingMs := nextDurationMs
    targetTimestamp := now + nextDurationMs }
  (s', [snap s'])

/-- `finish` (src/timer.ts lines 108-115). -/
def finish (s : EngineState) : EngineState × List TimerSnapshot :=
  let s' := { s with
    intervalActive := false
    status := TimerStatus.finished
    phase := Phase.finished
    remainingMs := 0
    durationMs := 0 }
  (s', [snap s'])

/-- `advancePhase` (src/timer.ts lines 89-106).  `currentRound >= settings.rounds`
is rendered as `settings.rounds ≤ currentRound`. -/
def advancePhase (now : Nat) (s : EngineState) : EngineState × List TimerSnapshot :=
  match s.phase with
  | Phase.work =>
      if s.settings.rounds ≤ s.currentRound then
        finish s
      else
        let nextDuration := s.settings.restSeconds * 1000
        if nextDuration = 0 then
          startPhase now Phase.work (s.settings.workSeconds * 1000)
            { s with currentRound := s.currentRound + 1 }
        else
          startPhase now Phase.rest nextDuration s
  | Phase.rest =>
      startPhase now Phase.work (s.settings.workSeconds * 1000)
        { s with currentRound := s.currentRound + 1 }
  | _ => (s, [])

/-- `tick` (src/timer.ts lines 66-79).  `Math.max(0, target - now)` is
truncated `Nat` subtraction. -/
def tick (now : Nat) (s : EngineState) : EngineState × List TimerSnapshot :=
  if s.status ≠ TimerStatus.running then (s, [])
  else
    let s1 := { s with remainingMs := s.targetTimestamp - now }
    if s1.remainingMs = 0 then advancePhase now s1
    else (s1, [snap s1])

/-- `resume` (src/timer.ts lines 145-153). -/
def resume (now : Nat) (s : EngineState) : EngineState × List TimerSnapshot :=
  if s.status ≠ TimerStatus.paused then (s, [])
  else
    let s' := { s with
      status := TimerStatus.running
      targetTimestamp := now + s.remainingMs
      intervalActive := true }
    (s', [snap s'])

/-- `start` (src/timer.ts lines 117-132): no-op while running, `resume`
while paused, otherwise begin round 1's work phase and the tick loop. -/
def start (now : Nat) (s : EngineState) : EngineState × List TimerSnapshot :=
  if s.status = TimerStatus.running then (s, [])
  else if s.status = TimerStatus.paused then resume now s
  else
    let s1 := { s with status := TimerStatus.running, currentRound := 1 }
    let r := startPhase now Phase.work (s1.settings.workSeconds * 1000) s1
    let s3 := { r.1 with
      targetTimestamp := now + r.1.remainingMs
      intervalActive := true }
    (s3, r.2)

/-- `pause` (src/timer.ts lines 134-143). -/
def pause (now : Nat) (s : EngineState) : EngineState × List TimerSnapshot :=
  if s.status ≠ TimerStatus.running then (s, [])
  else
    let s' := { s with
      remainingMs := s.targetTimestamp - now
      intervalActive := false
      status := TimerStatus.paused }
    (s', [snap s'])

/-- `reset` (src/timer.ts lines 155-163). -/
def reset (s : EngineState) : EngineState × List TimerSnapshot :=
  let s' := { s with
    intervalActive := false
    status := TimerStatus.idle
    phase := Phase.idle
    currentRound := 0
    durationMs := s.settings.workSeconds * 1000
    remainingMs := s.settings.workSeconds * 1000 }
  (s', [snap s'])

/-- `updateSettings` (src/timer.ts lines 165-174). -/
def updateSettings (next : TimerSettings) (s : EngineState) :
    EngineState × List TimerSnapshot :=
  let s1 := { s with settings := next }
  let s2 :=
    if s1.status = TimerStatus.idle ∨ s1.status = TimerStatus.finished then
      { s1 with
        durationMs := next.workSeconds * 1000
        remainingMs := next.workSeconds * 1000
        currentRound := 0
        phase := Phase.idle }
    else s1
  (s2, [snap s2])

/-- The initial closure state of `createTimer` (src/timer.ts lines 34-41). -/
def initState (initialSettings : TimerSettings) : EngineState :=
  { settings := initialSettings
    phase := Phase.idle
    status := TimerStatus.idle
    currentRound := 0
    durationMs := initialSettings.workSeconds * 1000
    remainingMs := initialSettings.workSeconds * 1000
    targetTimestamp := 0
    intervalActive := false }

/-- `createTimer` (src/timer.ts lines 30-196): build the initial state and
emit it once, synchronously, before returning. -/
def createTimer (initialSettings : TimerSettings) :
    EngineState × List TimerSnapshot :=
  let s := initState initialSettings
  (s, [snap s])

/-- One externally triggerable event: a public command or a tick callback. -/
inductive Op where
  | start (now : Nat)
  | pause (now : Nat)
  | resume (now : Nat)
  | reset
  | updateSettings (next : TimerSettings)
  | tick (now : Nat)
deriving DecidableEq, Repr

/-- Apply one event to the engine state. -/
def applyOp (op : Op) (s : EngineState) : EngineState × List TimerSnapshot :=
  match op with
  | Op.start now => start now s
  | Op.pause now => pause now s
  | Op.resume now => resume now s
  | Op.reset => reset s
  | Op.updateSettings next => updateSettings next s
  | Op.tick now => tick now s

/-- Run a sequence of events from the freshly constructed engine. -/
def run (initialSettings : TimerSettings) (ops : List Op) : EngineState :=
  ops.foldl (fun s op => (applyOp op s).1) (initState initialSettings)

/-- States reachable from some construction by some event sequence. -/
inductive Reachable : EngineState → Prop where
  | init (st : TimerSettings) : Reachable (initState st)
  | step (s : EngineState) (op : Op) : Reachable s → Reachable (applyOp op s).1

/-- States reachable when every settings value in play has at least one
round and `updateSettings` is only issued while the engine is idle or
finished (the discipline under which the round-count invariant holds). -/
inductive ReachableR : EngineState → Prop where
  | init (st : TimerSettings) (h : 1 ≤ st.rounds) : ReachableR (initState st)
  | start (s : EngineState) (now : Nat) : ReachableR s → ReachableR (start now s).1
  | pause (s : EngineState) (now : Nat) : ReachableR s → ReachableR (pause now s).1
  | resume (s : EngineState) (now : Nat) : ReachableR s → ReachableR (resume now s).1
  | reset (s : EngineState) : ReachableR s → ReachableR (reset s).1
  | tick (s : EngineState) (now : Nat) : ReachableR s → ReachableR (tick now s).1
  | update (s : EngineState) (next : TimerSettings) (hr : 1 ≤ next.rounds)
      (hs : s.status = TimerStatus.idle ∨ s.status = TimerStatus.finished) :
      ReachableR s → ReachableR (updateSettings next s).1

/-! ## Settings persistence (src/storage.ts) -/

/-- A JSON value, as produced by a successful `JSON.parse`. -/
inductive Json where
  | null
  | bool (b : Bool)
  | num (q : ℚ)
  | str (s : String)
  | arr (elements : List Json)
  | obj (fields : List (String × Json))

/-- JavaScript property access on a parsed JSON object: the last binding
of a duplicated key wins, a missing key yields `undefined` (`none`). -/
def getField (fields : List (String × Json)) (key : String) : Option Json :=
  fields.foldl (fun acc kv => if kv.1 = key then some kv.2 else acc) none

/-- `Math.round`: round half toward positive infinity. -/
def mathRound (q : ℚ) : ℤ := Int.floor (q + 1 / 2)

/-- `clamp` (src/storage.ts lines 69-71): `Math.min(max, Math.max(min, value))`;
the source parameters `min`/`max` are rendered `lo`/`hi`. -/
def clamp (value lo hi : ℤ) : ℤ := min hi (max lo value)

/-- `StoredSettings` (src/storage.ts): the timer settings plus UI flags.
After a load the numeric fields are integral, so they are modelled in `ℤ`. -/
structure StoredSettings where
  workSeconds : ℤ
  restSeconds : ℤ
  rounds : ℤ
  muted : Bool
  settingsPanelOpen : Bool
deriving DecidableEq, Repr

/-- `DEFAULT_SETTINGS` (src/storage.ts lines 10-16). -/
def DEFAULT_SETTINGS : StoredSettings :=
  { workSeconds := 20, restSeconds := 10, rounds := 8
    muted := false, settingsPanelOpen := false }

/-- What `localStorage.getItem` + `JSON.parse` can hand `loadSettings`:
no entry (or an empty string, both falsy), a parse failure (the thrown
exception lands in the `catch`), or a parsed JSON value. -/
inductive RawStored where
  | missing
  | parseError
  | value (parsed : Json)

/-- `loadSettings` (src/storage.ts lines 18-51).  A non-object or `null`
parse result, or a missing/ill-typed required field, falls back to the
defaults; a JSON array has none of the required string properties, so it
takes the same default branch its failed `typeof` field checks take in JS. -/
def loadSettings (raw : RawStored) : StoredSettings :=
  match raw with
  | RawStored.missing => DEFAULT_SETTINGS
  | RawStored.parseError => DEFAULT_SETTINGS
  | RawStored.value parsed =>
    match parsed with
    | Json.obj fields =>
      match getField fields "workSeconds", getField fields "restSeconds",
            getField fields "rounds", getField fields "muted" with
      | some (Json.num w), some (Json.num r), some (Json.num n), some (Json.bool m) =>
        { workSeconds := clamp (mathRound w) 5 600
          restSeconds := clamp (mathRound r) 5 600
          rounds := clamp (mathRound n) 1 50
          muted := m
          settingsPanelOpen :=
            match getField fields "settingsPanelOpen" with
            | some (Json.bool b) => b
            | _ => DEFAULT_SETTINGS.settingsPanelOpen }
      | _, _, _, _ => DEFAULT_SETTINGS
    | _ => DEFAULT_SETTINGS

/-- The stored value is an object carrying numeric `workSeconds`,
`restSeconds`, `rounds` and a boolean `muted`. -/
def wellTypedStored (raw : RawStored) : Prop :=
  match raw with
  | RawStored.value (Json.obj fields) =>
    (∃ w : ℚ, getField fields "workSeconds" = some (Json.num w)) ∧
    (∃ r : ℚ, getField fields "restSeconds" = some (Json.num r)) ∧
    (∃ n : ℚ, getField fields "rounds" = some (Json.num n)) ∧
    (∃ m : Bool, getField fields "muted" = some (Json.bool m))
  | _ => False

/-- The inductive invariant behind the round-count bound: the round never
exceeds the configured rounds, a rest phase only runs strictly before the
last round, and the configuration has at least one round. -/
def Inv3 (s : EngineState) : Prop :=
  s.currentRound ≤ s.settings.rounds ∧
  (s.phase = Phase.rest → s.currentRound < s.settings.rounds) ∧
  1 ≤ s.settings.rounds

/-- A concrete stored object used to exercise `loadSettings`: an oversized
work duration, a fractional rest duration, and a rounds value below range. -/
def sampleStoredFields : List (String × Json) :=
  [("workSeconds", Json.num 1000), ("restSeconds", Json.num (7 / 2)),
   ("rounds", Json.num 0), ("muted", Json.bool true)]

/-! ## Helper lemmas -/

lemma inv1_step (s : EngineState) (op : Op)
    (h : s.phase = Phase.finished → s.status = TimerStatus.finished) :
    (applyOp op s).1.phase = Phase.finished →
    (applyOp op s).1.status = TimerStatus.finished := by
  cases op <;>
    simp only [applyOp, start, pause, resume, reset, updateSettings, tick,
      advancePhase, startPhase, finish] <;>
    repeat' split
  all_goals simp_all

lemma reachable_foldl (ops : List Op) (s : EngineState) (h : Reachable s) :
    Reachable (ops.foldl (fun t op => (applyOp op t).1) s) := by
  induction ops generalizing s with
  | nil => exact h
  | cons op rest ih => exact ih _ (Reachable.step s op h)

lemma reachable_run (st : TimerSettings) (ops : List Op) :
    Reachable (run st ops) :=
  reachable_foldl ops (initState st) (Reachable.init st)

lemma inv3_of_reachableR (s : EngineState) (h : ReachableR s) : Inv3 s := by
  induction h with
  | init st hr =>
    refine ⟨?_, ?_, hr⟩ <;> simp [initState]
  | start s now hs ih =>
    unfold Inv3 at *
    simp only [start, resume, startPhase]
    repeat' split
    all_goals simp_all
  | pause s now hs ih =>
    unfold Inv3 at *
    simp only [pause]
    repeat' split
    all_goals simp_all
  | resume s now hs ih =>
    unfold Inv3 at *
    simp only [resume]
    repeat' split
    all_goals simp_all
  | reset s hs ih =>
    unfold Inv3 at *
    simp only [reset]
    simp_all
  | tick s now hs ih =>
    unfold Inv3 at *
    simp only [tick, advancePhase, startPhase, finish]
    repeat' split
    all_goals simp_all
    all_goals omega
  | update s next hr hst hs ih =>
    unfold Inv3 at *
    simp only [updateSettings]
    repeat' split
    all_goals simp_all

lemma clamp_mem (value lo hi : ℤ) (h : lo ≤ hi) :
    lo ≤ clamp value lo hi ∧ clamp value lo hi ≤ hi :=
  ⟨le_min h (le_max_left lo value), min_le_left hi _⟩

lemma loadSettings_default (raw : RawStored) (h : ¬ wellTypedStored raw) :
    loadSettings raw = DEFAULT_SETTINGS := by
  unfold loadSettings wellTypedStored at *
  split
  · rfl
  · rfl
  · rename_i parsed
    split
    · rename_i fields
      split
      · rename_i w r n m hw
        exfalso; apply h
        simp_all
      · rfl
    · cases parsed <;> simp_all

/-! ## Claims -/

/-- C1 counterexample: the claimed equivalence `phase == finished ⇔
status == finished` fails on a reachable state.  With settings (1s work,
no rest, 1 round), `start` at t=0 and a tick at t=1000 finish the run;
`updateSettings` then resets `phase` to `idle` while `status` stays
`finished`. -/
theorem finished_phase_iff_status_counterexample :
    ¬ (∀ s : EngineState, Reachable s →
        ((snap s).phase = Phase.finished ↔ (snap s).status = TimerStatus.finished)) := by
  intro hclaim
  have hr := reachable_run ⟨1, 0, 1⟩
    [Op.start 0, Op.tick 1000, Op.updateSettings ⟨1, 0, 1⟩]
  have := (hclaim _ hr).mpr (by decide)
  revert this
  decide

/-- C1 (amended): in every reachable engine state, `phase == finished`
implies `status == finished`.  (The converse direction fails after
`updateSettings` is called while finished.) -/
theorem finished_phase_implies_finished_status (s : EngineState)
    (h : Reachable s) (hp : (snap s).phase = Phase.finished) :
    (snap s).status = TimerStatus.finished := by
  induction h with
  | init st => simp [initState, snap] at hp
  | step s op hs ih => exact inv1_step s op (fun hph => ih hph) hp

/-- C1 witness: the amended implication at a concrete finished state. -/
theorem finished_phase_implies_finished_status_witness :
    (run ⟨1, 0, 1⟩ [Op.start 0, Op.tick 1000]).phase = Phase.finished ∧
    (snap (run ⟨1, 0, 1⟩ [Op.start 0, Op.tick 1000])).status = TimerStatus.finished :=
  ⟨by decide,
   finished_phase_implies_finished_status _
     (reachable_run ⟨1, 0, 1⟩ [Op.start 0, Op.tick 1000]) (by decide)⟩

/-- C2 counterexample: `finished` is not terminal under `start()`.  On the
reachable finished state of a completed 1-round run, `start` at t=2000
sets `status` to `running`, not `finished`. -/
theorem finished_terminal_counterexample :
    ¬ (∀ s : EngineState, Reachable s → s.status = TimerStatus.finished →
        (start 2000 s).1.status = TimerStatus.finished) := by
  intro hclaim
  have hr := reachable_run ⟨1, 0, 1⟩ [Op.start 0, Op.tick 1000]
  have := hclaim _ hr (by decide)
  revert this
  decide

/-- C2 (amended): from any state with `status == finished`, `pause`,
`resume` and `updateSettings` leave the status `finished`, while `start`
(like `reset`) leaves the finished state — it begins a new run with
`status == running`. -/
theorem finished_terminal_except_reset_start (s : EngineState)
    (h : s.status = TimerStatus.finished) (now : Nat) (next : TimerSettings) :
    (pause now s).1.status = TimerStatus.finished ∧
    (resume now s).1.status = TimerStatus.finished ∧
    (updateSettings next s).1.status = TimerStatus.finished ∧
    (start now s).1.status = TimerStatus.running := by
  simp [pause, resume, updateSettings, start, startPhase, h]

/-- C2 witness: the amended statement at a concrete finished state. -/
theorem finished_terminal_except_reset_start_witness :
    (run ⟨1, 0, 1⟩ [Op.start 0, Op.tick 1000]).status = TimerStatus.finished ∧
    (pause 2000 (run ⟨1, 0, 1⟩ [Op.start 0, Op.tick 1000])).1.status = TimerStatus.finished ∧
    (updateSettings ⟨2, 2, 2⟩ (run ⟨1, 0, 1⟩ [Op.start 0, Op.tick 1000])).1.status =
      TimerStatus.finished :=
  ⟨by decide,
   (finished_terminal_except_reset_start _ (by decide) 2000 ⟨2, 2, 2⟩).1,
   (finished_terminal_except_reset_start _ (by decide) 2000 ⟨2, 2, 2⟩).2.2.1⟩

/-- C3 counterexample: `currentRound ≤ totalRounds` fails on a reachable
snapshot.  Run (1s work, 1s rest, 3 rounds) into round 2, then call
`updateSettings` with `rounds := 1` while running: the next snapshot has
`currentRound = 2 > totalRounds = 1`. -/
theorem round_le_total_counterexample :
    ¬ (∀ s : EngineState, Reachable s →
        (snap s).currentRound ≤ (snap s).totalRounds) := by
  intro hclaim
  have hr := reachable_run ⟨1, 1, 3⟩
    [Op.start 0, Op.tick 1000, Op.tick 2000, Op.updateSettings ⟨1, 1, 1⟩]
  have := hclaim _ hr
  revert this
  decide

/-- C3 (amended): `currentRound ≤ totalRounds` holds in every state
reachable when all settings have at least one round and `updateSettings`
is only called while the engine is idle or finished. -/
theorem round_le_total_of_disciplined (s : EngineState) (h : ReachableR s) :
    (snap s).currentRound ≤ (snap s).totalRounds :=
  (inv3_of_reachableR s h).1

/-- C3 witness: the amended bound at a concrete disciplined state. -/
theorem round_le_total_of_disciplined_witness :
    (snap (start 0 (initState ⟨1, 0, 1⟩)).1).currentRound ≤
      (snap (start 0 (initState ⟨1, 0, 1⟩)).1).totalRounds :=
  round_le_total_of_disciplined _
    (ReachableR.start _ 0 (ReachableR.init ⟨1, 0, 1⟩ (by decide)))

/-- C4: advancement from a work phase: with `currentRound ≥ rounds` it
finishes (no rest after the last round); with rounds remaining and
`restSeconds = 0` it skips rest, increments the round and re-enters work,
emitting only work snapshots; otherwise it enters rest with
`durationMs = restSeconds * 1000`; and no emitted snapshot is ever a
zero-duration rest. -/
theorem advancePhase_from_work (s : EngineState) (now : Nat)
    (h : s.phase = Phase.work) :
    (s.settings.rounds ≤ s.currentRound →
       advancePhase now s = finish s ∧
       (advancePhase now s).1.status = TimerStatus.finished ∧
       (advancePhase now s).1.phase = Phase.finished) ∧
    (s.currentRound < s.settings.rounds → s.settings.restSeconds = 0 →
       (advancePhase now s).1.phase = Phase.work ∧
       (advancePhase now s).1.currentRound = s.currentRound + 1 ∧
       (advancePhase now s).1.durationMs = s.settings.workSeconds * 1000 ∧
       ∀ o ∈ (advancePhase now s).2, o.phase = Phase.work) ∧
    (s.currentRound < s.settings.rounds → s.settings.restSeconds ≠ 0 →
       (advancePhase now s).1.phase = Phase.rest ∧
       (advancePhase now s).1.durationMs = s.settings.restSeconds * 1000 ∧
       (advancePhase now s).1.remainingMs = s.settings.restSeconds * 1000 ∧
       (advancePhase now s).1.currentRound = s.currentRound) ∧
    (∀ o ∈ (advancePhase now s).2, ¬ (o.phase = Phase.rest ∧ o.durationMs = 0)) := by
  simp only [advancePhase, h, startPhase, finish, snap]
  repeat' split
  all_goals simp_all

/-- C4 witness: rest elision at the end of round 1 of (5s work, no rest,
3 rounds): advancement re-enters work with the round incremented to 2. -/
theorem advancePhase_from_work_witness :
    ((⟨⟨5, 0, 3⟩, Phase.work, TimerStatus.running, 1, 5000, 0, 0, true⟩ :
        EngineState).phase = Phase.work) ∧
    (advancePhase 0 ⟨⟨5, 0, 3⟩, Phase.work, TimerStatus.running, 1, 5000, 0, 0, true⟩).1.phase
        = Phase.work ∧
    (advancePhase 0 ⟨⟨5, 0, 3⟩, Phase.work, TimerStatus.running, 1, 5000, 0, 0, true⟩).1.currentRound
        = 2 :=
  ⟨rfl,
   ((advancePhase_from_work _ 0 rfl).2.1 (by decide) (by decide)).1,
   ((advancePhase_from_work _ 0 rfl).2.1 (by decide) (by decide)).2.1⟩

/-- C5: for valid settings, `start()` from idle runs round 1's work phase
with `remainingMs = durationMs = workSeconds * 1000` and synchronously
emits exactly that snapshot (before any tick can run). -/
theorem start_from_idle (s : EngineState) (now : Nat)
    (hw : 1 ≤ s.settings.workSeconds) (hr : 1 ≤ s.settings.rounds)
    (h : s.status = TimerStatus.idle) :
    (start now s).1.status = TimerStatus.running ∧
    (start now s).1.phase = Phase.work ∧
    (start now s).1.currentRound = 1 ∧
    (start now s).1.durationMs = s.settings.workSeconds * 1000 ∧
    (start now s).1.remainingMs = s.settings.workSeconds * 1000 ∧
    (start now s).2 =
      [{ status := TimerStatus.running, phase := Phase.work, currentRound := 1
         totalRounds := s.settings.rounds
         durationMs := s.settings.workSeconds * 1000
         remainingMs := s.settings.workSeconds * 1000 }] := by
  simp [start, startPhase, snap, h]

/-- C5 witness: starting the default 20s/10s/8-round configuration. -/
theorem start_from_idle_witness :
    1 ≤ (initState ⟨20, 10, 8⟩).settings.workSeconds ∧
    (initState ⟨20, 10, 8⟩).status = TimerStatus.idle ∧
    (start 5 (initState ⟨20, 10, 8⟩)).1.remainingMs = 20 * 1000 :=
  ⟨by decide, by decide,
   (start_from_idle (initState ⟨20, 10, 8⟩) 5 (by decide) (by decide) (by decide)).2.2.2.2.1⟩

/-- C6: `updateSettings` always installs the new configuration and emits
exactly one snapshot; while running or paused it leaves `durationMs`,
`remainingMs`, `phase` and `currentRound` untouched; while idle it resets
the preview `remainingMs`/`durationMs` to the new work duration. -/
theorem updateSettings_frame (s : EngineState) (next : TimerSettings) :
    ((s.status = TimerStatus.running ∨ s.status = TimerStatus.paused) →
       (updateSettings next s).1.settings = next ∧
       (updateSettings next s).1.durationMs = s.durationMs ∧
       (updateSettings next s).1.remainingMs = s.remainingMs ∧
       (updateSettings next s).1.phase = s.phase ∧
       (updateSettings next s).1.currentRound = s.currentRound) ∧
    (s.status = TimerStatus.idle →
       (updateSettings next s).1.remainingMs = next.workSeconds * 1000 ∧
       (updateSettings next s).1.durationMs = next.workSeconds * 1000) ∧
    ((updateSettings next s).1.settings = next ∧
     (updateSettings next s).2.length = 1) := by
  refine ⟨?_, ?_, ?_, rfl⟩
  · rintro (h | h) <;> simp [updateSettings, h]
  · intro h; simp [updateSettings, h]
  · simp only [updateSettings]
    split <;> rfl

/-- C6 witness: changing settings mid-run leaves the running phase's
remaining time untouched. -/
theorem updateSettings_frame_witness :
    ((run ⟨1, 1, 3⟩ [Op.start 0]).status = TimerStatus.running ∨
      (run ⟨1, 1, 3⟩ [Op.start 0]).status = TimerStatus.paused) ∧
    (updateSettings ⟨7, 8, 9⟩ (run ⟨1, 1, 3⟩ [Op.start 0])).1.remainingMs =
      (run ⟨1, 1, 3⟩ [Op.start 0]).remainingMs :=
  ⟨Or.inl (by decide),
   ((updateSettings_frame (run ⟨1, 1, 3⟩ [Op.start 0]) ⟨7, 8, 9⟩).1
      (Or.inl (by decide))).2.2.1⟩

/-- C7: from a running state, `pause` at `now1` followed by `resume` at
`now2` keeps `remainingMs` exactly at the wall-clock remainder frozen at
the pause, and leaves `phase` and `currentRound` unchanged. -/
theorem pause_resume_roundtrip (s : EngineState) (now1 now2 : Nat)
    (h : s.status = TimerStatus.running) :
    (resume now2 (pause now1 s).1).1.remainingMs = (pause now1 s).1.remainingMs ∧
    (pause now1 s).1.remainingMs = s.targetTimestamp - now1 ∧
    (resume now2 (pause now1 s).1).1.phase = s.phase ∧
    (resume now2 (pause now1 s).1).1.currentRound = s.currentRound ∧
    (resume now2 (pause now1 s).1).1.status = TimerStatus.running := by
  simp [pause, resume, h]

/-- C7 witness: pause at t=400 and resume at t=700 during round 1. -/
theorem pause_resume_roundtrip_witness :
    (run ⟨1, 1, 3⟩ [Op.start 0]).status = TimerStatus.running ∧
    (resume 700 (pause 400 (run ⟨1, 1, 3⟩ [Op.start 0])).1).1.remainingMs =
      (pause 400 (run ⟨1, 1, 3⟩ [Op.start 0])).1.remainingMs :=
  ⟨by decide, (pause_resume_roundtrip (run ⟨1, 1, 3⟩ [Op.start 0]) 400 700 (by decide)).1⟩

/-- C8: from any state, `pause` twice is the same state as `pause` once
and `start` twice is the same state as `start` once; moreover `start`
while running and `pause` outside running are exact no-ops (state kept,
nothing emitted). -/
theorem pause_start_idempotent (s : EngineState) (now1 now2 : Nat) :
    (pause now2 (pause now1 s).1).1 = (pause now1 s).1 ∧
    (start now2 (start now1 s).1).1 = (start now1 s).1 ∧
    (s.status = TimerStatus.running → start now1 s = (s, [])) ∧
    (s.status ≠ TimerStatus.running → pause now1 s = (s, [])) := by
  cases hs : s.status <;>
    simp [pause, start, resume, startPhase, hs]

/-- C8 witness: idempotence and the idle-state `pause` no-op on the
default configuration. -/
theorem pause_start_idempotent_witness :
    (pause 7 (pause 3 (initState ⟨20, 10, 8⟩)).1).1 = (pause 3 (initState ⟨20, 10, 8⟩)).1 ∧
    (start 11 (start 3 (initState ⟨20, 10, 8⟩)).1).1 = (start 3 (initState ⟨20, 10, 8⟩)).1 ∧
    pause 3 (initState ⟨20, 10, 8⟩) = (initState ⟨20, 10, 8⟩, []) :=
  ⟨(pause_start_idempotent (initState ⟨20, 10, 8⟩) 3 7).1,
   (pause_start_idempotent (initState ⟨20, 10, 8⟩) 3 11).2.1,
   (pause_start_idempotent (initState ⟨20, 10, 8⟩) 3 7).2.2.2 (by decide)⟩

/-- C9: `loadSettings` is total; any missing, unparseable, non-object or
ill-typed stored value yields the fixed defaults, and a well-typed stored
object yields its numeric fields rounded and clamped — `workSeconds` and
`restSeconds` into [5, 600], `rounds` into [1, 50]. -/
theorem loadSettings_spec (raw : RawStored) :
    (¬ wellTypedStored raw → loadSettings raw = DEFAULT_SETTINGS) ∧
    (∀ (fields : List (String × Json)) (w r n : ℚ) (m : Bool),
       raw = RawStored.value (Json.obj fields) →
       getField fields "workSeconds" = some (Json.num w) →
       getField fields "restSeconds" = some (Json.num r) →
       getField fields "rounds" = some (Json.num n) →
       getField fields "muted" = some (Json.bool m) →
       (loadSettings raw).workSeconds = clamp (mathRound w) 5 600 ∧
       (loadSettings raw).restSeconds = clamp (mathRound r) 5 600 ∧
       (loadSettings raw).rounds = clamp (mathRound n) 1 50 ∧
       (loadSettings raw).muted = m ∧
       5 ≤ (loadSettings raw).workSeconds ∧ (loadSettings raw).workSeconds ≤ 600 ∧
       5 ≤ (loadSettings raw).restSeconds ∧ (loadSettings raw).restSeconds ≤ 600 ∧
       1 ≤ (loadSettings raw).rounds ∧ (loadSettings raw).rounds ≤ 50) := by
  constructor
  · exact loadSettings_default raw
  · intro fields w r n m hraw hw hr hn hm
    subst hraw
    simp only [loadSettings, hw, hr, hn, hm]
    exact ⟨trivial, trivial, trivial, trivial,
      (clamp_mem (mathRound w) 5 600 (by decide)).1,
      (clamp_mem (mathRound w) 5 600 (by decide)).2,
      (clamp_mem (mathRound r) 5 600 (by decide)).1,
      (clamp_mem (mathRound r) 5 600 (by decide)).2,
      (clamp_mem (mathRound n) 1 50 (by decide)).1,
      (clamp_mem (mathRound n) 1 50 (by decide)).2⟩

/-- C9 witness: loading the concrete stored object clamps the oversized
work duration and keeps the fractional rest duration within range. -/
theorem loadSettings_spec_witness :
    getField sampleStoredFields "muted" = some (Json.bool true) ∧
    (loadSettings (RawStored.value (Json.obj sampleStoredFields))).workSeconds =
      clamp (mathRound 1000) 5 600 ∧
    5 ≤ (loadSettings (RawStored.value (Json.obj sampleStoredFields))).restSeconds :=
  ⟨rfl,
   ((loadSettings_spec (RawStored.value (Json.obj sampleStoredFields))).2
      sampleStoredFields 1000 (7 / 2) 0 true rfl rfl rfl rfl rfl).1,
   ((loadSettings_spec (RawStored.value (Json.obj sampleStoredFields))).2
      sampleStoredFields 1000 (7 / 2) 0 true rfl rfl rfl rfl rfl).2.2.2.2.2.2.1⟩

/-- C10: constructing the timer emits exactly one snapshot before
returning — the idle preview of the initial settings. -/
theorem createTimer_initial_emit (initialSettings : TimerSettings) :
    createTimer initialSettings =
      (initState initialSettings,
       [{ status := TimerStatus.idle, phase := Phase.idle, currentRound := 0
          totalRounds := initialSettings.rounds
          durationMs := initialSettings.workSeconds * 1000
          remainingMs := initialSettings.workSeconds * 1000 }]) := rfl

end HiitTimer
